import Mathlib

/-!
Verification development for the `fhsmendes/open-telemetry` repository:
a two-service Go system that resolves a Brazilian postal code (CEP) to a
temperature report.

The repository contains two variants of the orchestration service:
* a traced variant (package `utils` / `handler` with OpenTelemetry spans):
  `GetCityFromCEP(ctx, cep, span)`, `GetTemperature(ctx, city, span)`,
  `TemperatureHandler` threading spans through every stage;
* an untraced variant (`service-orchestration/utils`): the same pipeline
  without spans, and — importantly — without the HTTP status-code check in
  its geocode client.

Both variants are embedded below (`Traced.*` and `Untraced.*`), plus the
front gateway (`Gateway.*`).  Go `float64` values are modelled as exact
rationals (`ℚ`); Go's `encoding/json` unmarshalling into the repository's
tagged structs is modelled by an explicit JSON value type and per-struct
decoders following the documented stdlib semantics (`null` is a no-op,
missing fields keep the zero value, type mismatches fail, later duplicate
keys overwrite earlier ones, and incoming keys are matched against the
struct tags case-insensitively as by `strings.EqualFold`; the tags
occurring here contain no letters with case-fold partners outside ASCII,
so simple Unicode case-folding coincides with the ASCII folding modelled
below).  Network interaction is modelled by passing the outcome of each
outbound call as an explicit environment value.
-/

/-- A JSON value, as produced by a successful parse of a response body. -/
inductive JSON where
  | null : JSON
  | bool (b : Bool) : JSON
  | num (q : ℚ) : JSON
  | str (s : String) : JSON
  | arr (elems : List JSON) : JSON
  | obj (fields : List (String × JSON)) : JSON
deriving Repr

/-- Go struct `models.ViaCEP`: `Localidade string`, `Erro bool` with tags
`json:"localidade"` and `json:"erro,omitempty"`. -/
structure ViaCEP where
  localidade : String := ""
  erro : Bool := false
deriving Repr, DecidableEq

/-- The anonymous inner struct of `models.WeatherAPI`: `TempC float64` with
tag `json:"temp_c"`. -/
structure Current where
  tempC : ℚ := 0
deriving Repr, DecidableEq

/-- Go struct `models.WeatherAPI`: `Current` with tag `json:"current"`. -/
structure WeatherAPI where
  current : Current := {}
deriving Repr, DecidableEq

/-- Go struct `models.Temperature`: the response entity with JSON tags
`city`, `temp_C`, `temp_F`, `temp_K`. -/
structure Temperature where
  city : String := ""
  tempC : ℚ := 0
  tempF : ℚ := 0
  tempK : ℚ := 0
deriving Repr, DecidableEq

/-- ASCII lower-casing of one character, the case folding relevant to the
struct tags used in this repository. -/
def foldKeyChar (c : Char) : Char :=
  if 'A' ≤ c && c ≤ 'Z' then Char.ofNat (c.toNat + 32) else c

/-- Go `encoding/json` key matching: an incoming object key is matched
against a struct tag preferring an exact match but also accepting a
case-insensitive match (`strings.EqualFold`).  For the all-lowercase tags
`localidade`, `erro`, `current` and `temp_c` — none of whose letters has a
case-fold partner outside ASCII — this is ASCII case-insensitive
equality. -/
def keyEqFold (k tag : String) : Bool :=
  k.data.map foldKeyChar == tag.data.map foldKeyChar

/-- One key of a JSON object assigned into a `ViaCEP` value, following Go
`encoding/json`: a key matching `localidade` (case-insensitively) accepts
a string (or `null` as a no-op), a key matching `erro` accepts a bool (or
`null`), any other key is ignored, and a type mismatch is an unmarshal
error. -/
def assignViaCEP (acc : ViaCEP) (kv : String × JSON) : Except String ViaCEP :=
  if keyEqFold kv.1 "localidade" then
    match kv.2 with
    | JSON.null => .ok acc
    | JSON.str s => .ok { acc with localidade := s }
    | _ => .error "json: cannot unmarshal value into field localidade of type string"
  else if keyEqFold kv.1 "erro" then
    match kv.2 with
    | JSON.null => .ok acc
    | JSON.bool b => .ok { acc with erro := b }
    | _ => .error "json: cannot unmarshal value into field erro of type bool"
  else
    .ok acc

/-- Go `encoding/json` unmarshalling of a parsed JSON value into
`models.ViaCEP`: `null` leaves the zero value, an object assigns its keys
in order, anything else is an unmarshal error. -/
def decodeViaCEP : JSON → Except String ViaCEP
  | JSON.null => .ok {}
  | JSON.obj fields => fields.foldlM assignViaCEP {}
  | _ => .error "json: cannot unmarshal value into type models.ViaCEP"

/-- One key of a JSON object assigned into the inner `Current` struct: a
key matching `temp_c` (case-insensitively) accepts a number (or `null`),
other keys are ignored. -/
def assignCurrent (acc : Current) (kv : String × JSON) : Except String Current :=
  if keyEqFold kv.1 "temp_c" then
    match kv.2 with
    | JSON.null => .ok acc
    | JSON.num q => .ok { acc with tempC := q }
    | _ => .error "json: cannot unmarshal value into field temp_c of type float64"
  else
    .ok acc

/-- Go `encoding/json` unmarshalling of a parsed JSON value into the inner
`Current` struct of `models.WeatherAPI`. -/
def decodeCurrentInto (acc : Current) : JSON → Except String Current
  | JSON.null => .ok acc
  | JSON.obj fields => fields.foldlM assignCurrent acc
  | _ => .error "json: cannot unmarshal value into field current of type struct"

/-- One key of a JSON object assigned into a `WeatherAPI` value: a key
matching `current` (case-insensitively) decodes into the nested struct,
other keys are ignored. -/
def assignWeatherAPI (acc : WeatherAPI) (kv : String × JSON) : Except String WeatherAPI :=
  if keyEqFold kv.1 "current" then
    (decodeCurrentInto acc.current kv.2).map fun c => { acc with current := c }
  else
    .ok acc

/-- Go `encoding/json` unmarshalling of a parsed JSON value into
`models.WeatherAPI`: `null` leaves the zero value, an object assigns its
keys in order, anything else is an unmarshal error.  A successful decode
of a body with no `current.temp_c` field leaves `tempC` at its zero
value `0`. -/
def decodeWeatherAPI : JSON → Except String WeatherAPI
  | JSON.null => .ok {}
  | JSON.obj fields => fields.foldlM assignWeatherAPI {}
  | _ => .error "json: cannot unmarshal value into type models.WeatherAPI"

/-- The character class `\d` of Go's RE2 regexp engine: exactly the ASCII
digits `0`–`9`. -/
def isCepDigit (c : Char) : Bool := '0' ≤ c && c ≤ '9'

/-- Anchored matching of the regular expression `\d{n}` against a list of
characters: the whole input must be exactly `n` ASCII digits.  With `n = 8`
this is the semantics of Go's `regexp.MatchString("^\\d\x7b8\x7d$", s)`
(RE2, no multiline flag: `^`/`$` anchor at the ends of the text). -/
def matchDigits : Nat → List Char → Bool
  | 0, [] => true
  | 0, _ :: _ => false
  | _ + 1, [] => false
  | n + 1, c :: cs => isCepDigit c && matchDigits n cs

/-- `utils.IsValidCEP` (service-orchestration/utils/commons.go):
`regexp.MatchString("^\\d\x7b8\x7d$", cep)`. -/
def IsValidCEP (cep : String) : Bool := matchDigits 8 cep.data

/-- `strings.ReplaceAll(s, t, "")` for a single-character `t`: removes every
occurrence of that character. -/
def stripChar (t : Char) (s : String) : String := ⟨s.data.filter fun c => c ≠ t⟩

/-- `validateCEP` (service-input/main.go): strips `-` and space characters
and then matches the same `^\d\x7b8\x7d$` pattern as the orchestrator's
validator. -/
def validateCEP (cep : String) : Bool :=
  matchDigits 8 (stripChar ' ' (stripChar '-' cep)).data

/-- `utils.ConvertTemperatures` (service-orchestration/utils/commons.go),
with `float64` arithmetic modelled exactly over `ℚ`. -/
def ConvertTemperatures (celsius : ℚ) : Temperature :=
  let fahrenheit := celsius * 1.8 + 32
  let kelvin := celsius + 273
  { tempC := celsius, tempF := fahrenheit, tempK := kelvin }

/-- Outcome of one outbound HTTP interaction, passed to a client as its
environment: request construction failed, the request itself failed
(network error, cancellation), or a response arrived with a status code and
a body.  `none` as body means the body is not parseable as JSON. -/
inductive FetchResult where
  | buildError (msg : String) : FetchResult
  | netError (msg : String) : FetchResult
  | response (status : Nat) (body : Option JSON) : FetchResult

/-- An OpenTelemetry span attribute (`attribute.String/Int/Bool/Float64`). -/
inductive Attr where
  | str (key value : String) : Attr
  | int (key : String) (value : Int) : Attr
  | bool (key : String) (value : Bool) : Attr
  | float (key : String) (value : ℚ) : Attr

/-- An OpenTelemetry span status code (`codes.Error` / `codes.Ok`). -/
inductive SpanCode where
  | error : SpanCode
  | ok : SpanCode

/-- The tracing capability: span state of type `σ` together with the span
operations the code calls.  The operations are arbitrary functions, so a
tracer whose operations fail silently (or corrupt the span state) is one
particular instance. -/
structure Tracer (σ : Type) where
  start : String → σ
  setAttributes : σ → List Attr → σ
  recordError : σ → String → σ
  setStatus : σ → SpanCode → String → σ
  endSpan : σ → σ

/-- `fmt.Sprintf(UrlViaCEP, cep)` with
`UrlViaCEP = "https://viacep.com.br/ws/%s/json/"`. -/
def urlViaCEP (cep : String) : String := "https://viacep.com.br/ws/" ++ cep ++ "/json/"

/-- Traced `utils.GetCityFromCEP(ctx, cep, span)`: records request
attributes, fails on request-construction or transport errors, rejects any
non-200 status, decodes the body into `models.ViaCEP`, and treats an
explicit `erro` flag or an empty `localidade` as the same
"can not find zipcode" failure.  Returns the Go `(string, error)` pair as
`Except`, together with the final span state. -/
def Traced.GetCityFromCEP (t : Tracer σ) (span : σ) (cep : String) (env : FetchResult) :
    Except String String × σ :=
  let url := urlViaCEP cep
  let span := t.setAttributes span
    [Attr.str "viacep.url" url, Attr.str "viacep.cep" cep, Attr.str "http.method" "GET"]
  match env with
  | FetchResult.buildError e =>
      (Except.error e, t.setStatus (t.recordError span e) SpanCode.error "failed to create HTTP request")
  | FetchResult.netError e =>
      (Except.error e, t.setStatus (t.recordError span e) SpanCode.error "HTTP request failed")
  | FetchResult.response status body =>
      let span := t.setAttributes span
        [Attr.int "http.status_code" status, Attr.str "http.status" (toString status)]
      if status ≠ 200 then
        let e := "ViaCEP API returned status: " ++ toString status
        (Except.error e, t.setStatus (t.recordError span e) SpanCode.error "unexpected HTTP status code")
      else
        match (match body with
               | none => Except.error "invalid JSON"
               | some j => decodeViaCEP j : Except String ViaCEP) with
        | Except.error e =>
            (Except.error e, t.setStatus (t.recordError span e) SpanCode.error "failed to decode JSON response")
        | Except.ok viaCEP =>
            let span := t.setAttributes span
              [Attr.str "viacep.localidade" viaCEP.localidade, Attr.bool "viacep.erro" viaCEP.erro]
            if viaCEP.erro || viaCEP.localidade == "" then
              let e := "can not find zipcode"
              (Except.error e, t.setStatus (t.recordError span e) SpanCode.error "can not find zipcodeP")
            else
              (Except.ok viaCEP.localidade, t.setStatus span SpanCode.ok "city successfully retrieved from ViaCEP")

/-- Traced `utils.GetTemperature(ctx, city, span)`: fails fast when the
`APIKeyWeather` credential is empty, fails on request-construction or
transport errors, rejects any non-200 status, and decodes the body into
`models.WeatherAPI`, returning `weather.Current.TempC`. -/
def Traced.GetTemperature (t : Tracer σ) (span : σ) (apiKey city : String) (env : FetchResult) :
    Except String ℚ × σ :=
  if apiKey == "" then
    (Except.error "API key is not set",
     t.setStatus (t.recordError span "API key is not set") SpanCode.error "API key is not set")
  else
    let _apiUrl := "https://api.weatherapi.com/v1/current.json?key=" ++ apiKey ++ "&q=" ++ city
    match env with
    | FetchResult.buildError e =>
        (Except.error e, t.setStatus (t.recordError span ("failed to create request: " ++ e)) SpanCode.error "failed to create request")
    | FetchResult.netError e =>
        (Except.error e, t.setStatus (t.recordError span ("failed to get temperature: " ++ e)) SpanCode.error "failed to get temperature")
    | FetchResult.response status body =>
        if status ≠ 200 then
          let e := "weather API returned status: " ++ toString status
          (Except.error e, t.setStatus (t.recordError span e) SpanCode.error "weather API returned error status")
        else
          match (match body with
                 | none => Except.error "invalid JSON"
                 | some j => decodeWeatherAPI j : Except String WeatherAPI) with
          | Except.error e =>
              (Except.error e, t.setStatus (t.recordError span ("failed to decode response: " ++ e)) SpanCode.error "failed to decode response")
          | Except.ok weather => (Except.ok weather.current.tempC, span)

/-- Untraced `utils.GetCityFromCEP(cep)`
(service-orchestration/utils/viacep.go): `http.Get`, decode, then the
`erro`/empty-`localidade` check.  Note: this variant never inspects the
response status code. -/
def Untraced.GetCityFromCEP (cep : String) (env : FetchResult) : Except String String :=
  let _url := urlViaCEP cep
  match env with
  | FetchResult.buildError e => Except.error e
  | FetchResult.netError e => Except.error e
  | FetchResult.response _status body =>
      match (match body with
             | none => Except.error "invalid JSON"
             | some j => decodeViaCEP j : Except String ViaCEP) with
      | Except.error e => Except.error e
      | Except.ok viaCEP =>
          if viaCEP.erro || viaCEP.localidade == "" then
            Except.error "zipcode not found"
          else
            Except.ok viaCEP.localidade

/-- Untraced `utils.GetTemperature(city)`: same pipeline as the traced
variant, without span bookkeeping; it does check the status code. -/
def Untraced.GetTemperature (apiKey city : String) (env : FetchResult) : Except String ℚ :=
  if apiKey == "" then
    Except.error "API key is not set"
  else
    let _apiUrl := "https://api.weatherapi.com/v1/current.json?key=" ++ apiKey ++ "&q=" ++ city
    match env with
    | FetchResult.buildError e => Except.error e
    | FetchResult.netError e => Except.error e
    | FetchResult.response status body =>
        if status ≠ 200 then
          Except.error ("weather API returned status: " ++ toString status)
        else
          match (match body with
                 | none => Except.error "invalid JSON"
                 | some j => decodeWeatherAPI j : Except String WeatherAPI) with
          | Except.error e => Except.error e
          | Except.ok weather => Except.ok weather.current.tempC

/-- A response body written by one of the handlers: a plain-text error
message, the JSON encoding of a `Temperature`, the JSON encoding of an
`ErrorResponse` message, or raw bytes passed through verbatim. -/
inductive Body where
  | text (s : String) : Body
  | jsonTemp (t : Temperature) : Body
  | jsonMessage (msg : String) : Body
  | raw (s : String) : Body
deriving Repr, DecidableEq

/-- The observable HTTP response: status code, whether the
`Content-Type: application/json` header was set, and the body. -/
structure HTTPResponse where
  status : Nat
  contentTypeJSON : Bool
  body : Body
deriving Repr, DecidableEq

/-- Result of one orchestrator-handler run: the HTTP response plus which
outbound provider calls were attempted, and (for the traced variant) the
ended spans in the order they were ended. -/
structure HandlerResult (σ : Type) where
  response : HTTPResponse
  geocodeCalled : Bool
  weatherCalled : Bool
  spans : List σ

/-- Traced `handler.TemperatureHandler`: validation → geocode → weather →
conversion, with a span per stage; each failing stage writes its fixed
message and short-circuits.  The geocode and weather environments stand for
the outcomes the two outbound calls would produce. -/
def Traced.TemperatureHandler (t : Tracer σ) (cep : String) (geoEnv : FetchResult)
    (apiKey : String) (wxEnv : FetchResult) : HandlerResult σ :=
  let mainSpan := t.start "temperature-handler"
  let mainSpan := t.setAttributes mainSpan [Attr.str "cep" cep]
  if IsValidCEP cep = false then
    let mainSpan := t.setStatus mainSpan SpanCode.error "invalid zipcode"
    let mainSpan := t.setAttributes mainSpan [Attr.bool "valid_cep" false]
    { response := { status := 422, contentTypeJSON := false, body := Body.text "invalid zipcode" },
      geocodeCalled := false, weatherCalled := false, spans := [t.endSpan mainSpan] }
  else
    let mainSpan := t.setAttributes mainSpan [Attr.bool "valid_cep" true]
    let spanCity := t.start "get-city-from-cep"
    let spanCity := t.setAttributes spanCity [Attr.str "cep" cep]
    match Traced.GetCityFromCEP t spanCity cep geoEnv with
    | (Except.error _e, spanCity) =>
        let spanCity := t.endSpan (t.setStatus spanCity SpanCode.error "city not found")
        let mainSpan := t.setStatus mainSpan SpanCode.error "can not find zipcode"
        { response := { status := 404, contentTypeJSON := false, body := Body.text "can not find zipcode" },
          geocodeCalled := true, weatherCalled := false, spans := [spanCity, t.endSpan mainSpan] }
    | (Except.ok city, spanCity) =>
        let spanCity := t.setAttributes spanCity [Attr.str "city" city]
        let spanCity := t.endSpan (t.setStatus spanCity SpanCode.ok "city found successfully")
        let spanTemp := t.start "get-temperature-from-weather-api"
        let spanTemp := t.setAttributes spanTemp [Attr.str "city" city]
        match Traced.GetTemperature t spanTemp apiKey city wxEnv with
        | (Except.error _e, spanTemp) =>
            let spanTemp := t.endSpan (t.setStatus spanTemp SpanCode.error "failed to get temperature")
            let mainSpan := t.setStatus mainSpan SpanCode.error "error getting temperature"
            { response := { status := 500, contentTypeJSON := false, body := Body.text "error getting temperature" },
              geocodeCalled := true, weatherCalled := true, spans := [spanCity, spanTemp, t.endSpan mainSpan] }
        | (Except.ok tempC, spanTemp) =>
            let spanTemp := t.setAttributes spanTemp [Attr.float "temperature_celsius" tempC]
            let spanTemp := t.endSpan (t.setStatus spanTemp SpanCode.ok "temperature retrieved successfully")
            let spanConvert := t.start "convert-temperatures"
            let temps := ConvertTemperatures tempC
            let temps := { temps with city := city }
            let spanConvert := t.setAttributes spanConvert
              [Attr.float "temp_celsius" temps.tempC, Attr.float "temp_fahrenheit" temps.tempF,
               Attr.float "temp_kelvin" temps.tempK]
            let spanConvert := t.endSpan (t.setStatus spanConvert SpanCode.ok "temperatures converted successfully")
            let mainSpan := t.setAttributes mainSpan [Attr.str "response_city" city]
            let mainSpan := t.setStatus mainSpan SpanCode.ok "request processed successfully"
            { response := { status := 200, contentTypeJSON := true, body := Body.jsonTemp temps },
              geocodeCalled := true, weatherCalled := true,
              spans := [spanCity, spanTemp, spanConvert, t.endSpan mainSpan] }

/-- Untraced `handler.TemperatureHandler`: the same pipeline without
tracing, built on the untraced clients (whose geocode variant ignores the
response status code). -/
def Untraced.TemperatureHandler (cep : String) (geoEnv : FetchResult) (apiKey : String)
    (wxEnv : FetchResult) : HandlerResult Unit :=
  if IsValidCEP cep = false then
    { response := { status := 422, contentTypeJSON := false, body := Body.text "invalid zipcode" },
      geocodeCalled := false, weatherCalled := false, spans := [] }
  else
    match Untraced.GetCityFromCEP cep geoEnv with
    | Except.error _e =>
        { response := { status := 404, contentTypeJSON := false, body := Body.text "can not find zipcode" },
          geocodeCalled := true, weatherCalled := false, spans := [] }
    | Except.ok city =>
        match Untraced.GetTemperature apiKey city wxEnv with
        | Except.error _e =>
            { response := { status := 500, contentTypeJSON := false, body := Body.text "error getting temperature" },
              geocodeCalled := true, weatherCalled := true, spans := [] }
        | Except.ok tempC =>
            let temps := ConvertTemperatures tempC
            let temps := { temps with city := city }
            { response := { status := 200, contentTypeJSON := true, body := Body.jsonTemp temps },
              geocodeCalled := true, weatherCalled := true, spans := [] }

/-- Outcome of the gateway's forwarded call to the orchestrator: request
construction failed, the call failed, or a response arrived whose body was
either read successfully (the raw bytes as a string) or failed to read. -/
inductive ForwardOutcome where
  | buildError (msg : String) : ForwardOutcome
  | netError (msg : String) : ForwardOutcome
  | response (status : Nat) (readResult : Except String String) : ForwardOutcome

/-- Result of one gateway-handler run: either the process aborts
(`log.Fatal` when `SERVICE_B_URL` is unset — no HTTP response is written)
or an HTTP response is sent. -/
inductive GatewayResult where
  | fatal : GatewayResult
  | respond (r : HTTPResponse) : GatewayResult
deriving Repr, DecidableEq

/-- `handleCEPRequest` (service-input/main.go).  `reqDecode` is the outcome
of `json.NewDecoder(r.Body).Decode(&req)` (`Except.ok cep` gives the `cep`
field of the decoded body); `serviceBURL` is the `SERVICE_B_URL`
environment variable; `fwd` is the outcome of the forwarded call.  Span
operations in this handler only record attributes and are omitted from the
model.  Every response sets `Content-Type: application/json`. -/
def Gateway.handleCEPRequest (reqDecode : Except String String) (serviceBURL : String)
    (fwd : ForwardOutcome) : GatewayResult :=
  match reqDecode with
  | Except.error _e =>
      GatewayResult.respond
        { status := 422, contentTypeJSON := true, body := Body.jsonMessage "invalid zipcode" }
  | Except.ok cep =>
      if validateCEP cep = false then
        GatewayResult.respond
          { status := 422, contentTypeJSON := true, body := Body.jsonMessage "invalid zipcode" }
      else
        let cleanCEP := stripChar ' ' (stripChar '-' cep)
        if serviceBURL == "" then
          GatewayResult.fatal
        else
          let _url := serviceBURL ++ "/temperature?cep=" ++ cleanCEP
          match fwd with
          | ForwardOutcome.buildError _e =>
              GatewayResult.respond
                { status := 500, contentTypeJSON := true, body := Body.jsonMessage "internal server error" }
          | ForwardOutcome.netError _e =>
              GatewayResult.respond
                { status := 500, contentTypeJSON := true, body := Body.jsonMessage "internal server error" }
          | ForwardOutcome.response status readResult =>
              match readResult with
              | Except.error _e =>
                  GatewayResult.respond
                    { status := 500, contentTypeJSON := true, body := Body.jsonMessage "internal server error" }
              | Except.ok bodyBytes =>
                  GatewayResult.respond
                    { status := status, contentTypeJSON := true, body := Body.raw bodyBytes }

/-- The value component of the traced geocode client, as a function of the
call outcome alone (used to state and prove that spans are metadata). -/
def cityCore (env : FetchResult) : Except String String :=
  match env with
  | FetchResult.buildError e => Except.error e
  | FetchResult.netError e => Except.error e
  | FetchResult.response status body =>
      if status ≠ 200 then
        Except.error ("ViaCEP API returned status: " ++ toString status)
      else
        match (match body with
               | none => Except.error "invalid JSON"
               | some j => decodeViaCEP j : Except String ViaCEP) with
        | Except.error e => Except.error e
        | Except.ok viaCEP =>
            if viaCEP.erro || viaCEP.localidade == "" then
              Except.error "can not find zipcode"
            else
              Except.ok viaCEP.localidade

/-- A trivial tracer over a unit span state, used to instantiate theorems
at concrete inputs. -/
def unitTracer : Tracer Unit where
  start _ := ()
  setAttributes s _ := s
  recordError s _ := s
  setStatus s _ _ := s
  endSpan s := s

theorem isCepDigit_iff (c : Char) : isCepDigit c = true ↔ 48 ≤ c.toNat ∧ c.toNat ≤ 57 := by
  simp [isCepDigit, Char.le_def, UInt32.le_def, Char.toNat, UInt32.toNat, BitVec.le_def]

theorem matchDigits_iff (l : List Char) (n : Nat) :
    matchDigits n l = true ↔ l.length = n ∧ ∀ c ∈ l, isCepDigit c = true := by
  induction l generalizing n with
  | nil => cases n <;> simp [matchDigits]
  | cons c cs ih =>
    cases n with
    | zero => simp [matchDigits]
    | succ m => simp [matchDigits, ih m, and_assoc, and_left_comm]

theorem stripChar_id (t : Char) (s : String) (h : t ∉ s.data) : stripChar t s = s := by
  unfold stripChar
  rw [List.filter_eq_self.mpr]
  intro a ha
  simp only [decide_eq_true_iff]
  exact fun hat => h (hat ▸ ha)

theorem getCityFromCEP_fst {σ : Type} (t : Tracer σ) (span : σ) (cep : String)
    (env : FetchResult) : (Traced.GetCityFromCEP t span cep env).fst = cityCore env := by
  cases env with
  | buildError e => rfl
  | netError e => rfl
  | response status body =>
    dsimp only [Traced.GetCityFromCEP, cityCore]
    split_ifs with hs
    · rfl
    · cases body with
      | none => rfl
      | some j =>
        dsimp only
        cases decodeViaCEP j with
        | error e => rfl
        | ok viaCEP =>
          dsimp only
          split_ifs <;> rfl

theorem getTemperature_fst {σ : Type} (t : Tracer σ) (span : σ) (apiKey city : String)
    (env : FetchResult) :
    (Traced.GetTemperature t span apiKey city env).fst = Untraced.GetTemperature apiKey city env := by
  dsimp only [Traced.GetTemperature, Untraced.GetTemperature]
  split_ifs with hk
  · rfl
  · cases env with
    | buildError e => rfl
    | netError e => rfl
    | response status body =>
      dsimp only
      split_ifs with hs
      · rfl
      · cases body with
        | none => rfl
        | some j =>
          dsimp only
          cases decodeWeatherAPI j with
          | error e => rfl
          | ok weather => rfl

theorem traced_handler_char {σ : Type} (t : Tracer σ) (cep : String) (geoEnv : FetchResult)
    (apiKey : String) (wxEnv : FetchResult) :
    ((Traced.TemperatureHandler t cep geoEnv apiKey wxEnv).response,
     (Traced.TemperatureHandler t cep geoEnv apiKey wxEnv).geocodeCalled,
     (Traced.TemperatureHandler t cep geoEnv apiKey wxEnv).weatherCalled) =
    (if IsValidCEP cep = false then
      ({ status := 422, contentTypeJSON := false, body := Body.text "invalid zipcode" }, false, false)
     else
      match cityCore geoEnv with
      | Except.error _ =>
          ({ status := 404, contentTypeJSON := false, body := Body.text "can not find zipcode" }, true, false)
      | Except.ok city =>
          match Untraced.GetTemperature apiKey city wxEnv with
          | Except.error _ =>
              ({ status := 500, contentTypeJSON := false, body := Body.text "error getting temperature" }, true, true)
          | Except.ok tempC =>
              ({ status := 200, contentTypeJSON := true,
                 body := Body.jsonTemp { ConvertTemperatures tempC with city := city } }, true, true)) := by
  dsimp only [Traced.TemperatureHandler]
  split_ifs with hv
  · rfl
  · rcases hp : Traced.GetCityFromCEP t
        (t.setAttributes (t.start "get-city-from-cep") [Attr.str "cep" cep]) cep geoEnv
      with ⟨res, sp2⟩
    have hres : cityCore geoEnv = res := by
      rw [← getCityFromCEP_fst t
        (t.setAttributes (t.start "get-city-from-cep") [Attr.str "cep" cep]) cep geoEnv, hp]
    rw [hres]
    cases res with
    | error e => rfl
    | ok city =>
      dsimp only
      rcases hq : Traced.GetTemperature t
          (t.setAttributes (t.start "get-temperature-from-weather-api") [Attr.str "city" city])
          apiKey city wxEnv
        with ⟨wres, wsp⟩
      have hwres : Untraced.GetTemperature apiKey city wxEnv = wres := by
        rw [← getTemperature_fst t
          (t.setAttributes (t.start "get-temperature-from-weather-api") [Attr.str "city" city])
          apiKey city wxEnv, hq]
      rw [hwres]
      cases wres with
      | error e => rfl
      | ok tempC => rfl

theorem untraced_handler_char (cep : String) (geoEnv : FetchResult) (apiKey : String)
    (wxEnv : FetchResult) :
    ((Untraced.TemperatureHandler cep geoEnv apiKey wxEnv).response,
     (Untraced.TemperatureHandler cep geoEnv apiKey wxEnv).geocodeCalled,
     (Untraced.TemperatureHandler cep geoEnv apiKey wxEnv).weatherCalled) =
    (if IsValidCEP cep = false then
      ({ status := 422, contentTypeJSON := false, body := Body.text "invalid zipcode" }, false, false)
     else
      match Untraced.GetCityFromCEP cep geoEnv with
      | Except.error _ =>
          ({ status := 404, contentTypeJSON := false, body := Body.text "can not find zipcode" }, true, false)
      | Except.ok city =>
          match Untraced.GetTemperature apiKey city wxEnv with
          | Except.error _ =>
              ({ status := 500, contentTypeJSON := false, body := Body.text "error getting temperature" }, true, true)
          | Except.ok tempC =>
              ({ status := 200, contentTypeJSON := true,
                 body := Body.jsonTemp { ConvertTemperatures tempC with city := city } }, true, true)) := by
  dsimp only [Untraced.TemperatureHandler]
  split_ifs with hv
  · rfl
  · cases Untraced.GetCityFromCEP cep geoEnv with
    | error e => rfl
    | ok city =>
      dsimp only
      cases Untraced.GetTemperature apiKey city wxEnv with
      | error e => rfl
      | ok tempC => rfl

theorem foldlM_assignWeatherAPI_skip (fields : List (String × JSON)) (acc : WeatherAPI)
    (h : ∀ kv ∈ fields, keyEqFold kv.1 "current" = false) :
    List.foldlM assignWeatherAPI acc fields = Except.ok acc := by
  induction fields generalizing acc with
  | nil => rfl
  | cons kv tl ih =>
    have hk : keyEqFold kv.1 "current" = false := h kv (List.mem_cons_self kv tl)
    have hstep : assignWeatherAPI acc kv = Except.ok acc := by
      unfold assignWeatherAPI
      rw [hk]
      simp
    simp only [List.foldlM_cons, hstep]
    exact ih acc fun kv hkv => h kv (List.mem_cons_of_mem _ hkv)

theorem foldlM_assignCurrent_skip (fields : List (String × JSON)) (acc : Current)
    (h : ∀ kv ∈ fields, keyEqFold kv.1 "temp_c" = false) :
    List.foldlM assignCurrent acc fields = Except.ok acc := by
  induction fields generalizing acc with
  | nil => rfl
  | cons kv tl ih =>
    have hk : keyEqFold kv.1 "temp_c" = false := h kv (List.mem_cons_self kv tl)
    have hstep : assignCurrent acc kv = Except.ok acc := by
      unfold assignCurrent
      rw [hk]
      simp
    simp only [List.foldlM_cons, hstep]
    exact ih acc fun kv hkv => h kv (List.mem_cons_of_mem _ hkv)

/-- C2: for every string `s`, `IsValidCEP s` is `true` exactly when `s`
consists of exactly 8 ASCII decimal digits (code points 48–57) and nothing
else.  The function is a total Lean function, so it is pure and returns
`false` (rather than failing) on malformed input. -/
theorem IsValidCEP_eight_ascii_digits (s : String) :
    IsValidCEP s = true ↔ s.data.length = 8 ∧ ∀ c ∈ s.data, 48 ≤ c.toNat ∧ c.toNat ≤ 57 := by
  unfold IsValidCEP
  rw [matchDigits_iff]
  simp only [isCepDigit_iff]

/-- C3: `ConvertTemperatures c` is exactly the report with `TempC = c`,
`TempF = c*1.8+32` and `TempK = c+273` (the simplified 273 offset); the
function is a pure total Lean function with no failure mode. -/
theorem ConvertTemperatures_formulas (c : ℚ) :
    ConvertTemperatures c = { city := "", tempC := c, tempF := c * 1.8 + 32, tempK := c + 273 } :=
  rfl

/-- C8: the gateway's `validateCEP` equals the orchestrator's `IsValidCEP`
composed with stripping of the explicitly-permitted hyphen/space
formatting characters, and the two validators agree on every
separator-free input. -/
theorem validateCEP_strip_agree (s : String) :
    validateCEP s = IsValidCEP (stripChar ' ' (stripChar '-' s)) ∧
    (('-' ∉ s.data ∧ ' ' ∉ s.data) → validateCEP s = IsValidCEP s) := by
  refine ⟨rfl, fun h => ?_⟩
  unfold validateCEP IsValidCEP
  rw [stripChar_id '-' s h.1, stripChar_id ' ' s h.2]

theorem validateCEP_strip_agree_witness :
    ('-' ∉ "01001000".data ∧ ' ' ∉ "01001000".data) ∧
    validateCEP "01001000" = IsValidCEP "01001000" :=
  ⟨by decide, (validateCEP_strip_agree "01001000").2 (by decide)⟩

/-- C4: for every successfully parsed geocode response, both clients fail
with one and the same error value when the `erro` flag is set or the
resolved city is empty (the two conditions are indistinguishable
downstream), and whenever either client succeeds the returned city is
non-empty. -/
theorem getCityFromCEP_notFound_nonempty {σ : Type} (t : Tracer σ) (span : σ) (cep : String)
    (env : FetchResult) :
    (∀ j viaCEP, decodeViaCEP j = Except.ok viaCEP →
      viaCEP.erro = true ∨ viaCEP.localidade = "" →
      (Traced.GetCityFromCEP t span cep (FetchResult.response 200 (some j))).fst =
        Except.error "can not find zipcode" ∧
      ∀ status, Untraced.GetCityFromCEP cep (FetchResult.response status (some j)) =
        Except.error "zipcode not found") ∧
    (∀ city, (Traced.GetCityFromCEP t span cep env).fst = Except.ok city → city ≠ "") ∧
    (∀ city, Untraced.GetCityFromCEP cep env = Except.ok city → city ≠ "") := by
  have hflag : ∀ viaCEP : ViaCEP, viaCEP.erro = true ∨ viaCEP.localidade = "" →
      (viaCEP.erro || viaCEP.localidade == "") = true := by
    rintro v (h | h) <;> simp [h]
  refine ⟨fun j v hd hcond => ⟨?_, fun status => ?_⟩, fun city h => ?_, fun city h => ?_⟩
  · rw [getCityFromCEP_fst]
    simp [cityCore, hd, hflag v hcond]
  · simp [Untraced.GetCityFromCEP, hd, hflag v hcond]
  · rw [getCityFromCEP_fst] at h
    cases env with
    | buildError e => simp [cityCore] at h
    | netError e => simp [cityCore] at h
    | response status body =>
      simp only [cityCore] at h
      by_cases hs : status = 200
      · rw [if_neg (fun hne => hne hs)] at h
        cases body with
        | none => simp at h
        | some j =>
          dsimp only at h
          cases hd : decodeViaCEP j with
          | error e => rw [hd] at h; simp at h
          | ok v =>
            rw [hd] at h
            dsimp only at h
            by_cases hb : (v.erro || v.localidade == "") = true
            · rw [if_pos hb] at h
              simp at h
            · rw [if_neg hb] at h
              obtain rfl : v.localidade = city := by simpa using h
              simp only [Bool.or_eq_true, beq_iff_eq, not_or] at hb
              exact hb.2
      · rw [if_pos hs] at h
        simp at h
  · cases env with
    | buildError e => simp [Untraced.GetCityFromCEP] at h
    | netError e => simp [Untraced.GetCityFromCEP] at h
    | response status body =>
      simp only [Untraced.GetCityFromCEP] at h
      cases body with
      | none => simp at h
      | some j =>
        dsimp only at h
        cases hd : decodeViaCEP j with
        | error e => rw [hd] at h; simp at h
        | ok v =>
          rw [hd] at h
          dsimp only at h
          by_cases hb : (v.erro || v.localidade == "") = true
          · rw [if_pos hb] at h
            simp at h
          · rw [if_neg hb] at h
            obtain rfl : v.localidade = city := by simpa using h
            simp only [Bool.or_eq_true, beq_iff_eq, not_or] at hb
            exact hb.2

theorem getCityFromCEP_notFound_nonempty_witness :
    decodeViaCEP (JSON.obj [("erro", JSON.bool true)]) =
      Except.ok { localidade := "", erro := true } ∧
    (Traced.GetCityFromCEP unitTracer () "99999999"
      (FetchResult.response 200 (some (JSON.obj [("erro", JSON.bool true)])))).fst =
      Except.error "can not find zipcode" :=
  ⟨by rfl,
   (((getCityFromCEP_notFound_nonempty unitTracer () "99999999"
        (FetchResult.response 200 (some (JSON.obj [("erro", JSON.bool true)])))).1
      (JSON.obj [("erro", JSON.bool true)]) { localidade := "", erro := true }
      (by rfl) (Or.inl rfl)).1)⟩

/-- C5 counterexample: the untraced geocode client
(service-orchestration/utils/viacep.go) never inspects the response status
code, so a response with non-success status 500 and a decodable body with a
non-empty city succeeds instead of returning a failure — refuting the claim
that every non-success status yields an error regardless of the body. -/
theorem untracedGetCity_ignores_status :
    Untraced.GetCityFromCEP "01001000"
      (FetchResult.response 500 (some (JSON.obj [("localidade", JSON.str "São Paulo")]))) =
      Except.ok "São Paulo" := by
  rfl

/-- C5 (amended): the traced geocode client returns a failure for every
response with a non-success status code, regardless of the body; the
untraced variant in service-orchestration/utils/viacep.go ignores the
status code. -/
theorem tracedGetCity_provider_status_error {σ : Type} (t : Tracer σ) (span : σ) (cep : String)
    (status : Nat) (body : Option JSON) (h : status ≠ 200) :
    (Traced.GetCityFromCEP t span cep (FetchResult.response status body)).fst =
      Except.error ("ViaCEP API returned status: " ++ toString status) := by
  rw [getCityFromCEP_fst]
  simp [cityCore, h]

theorem tracedGetCity_provider_status_error_witness :
    (500 : Nat) ≠ 200 ∧
    (Traced.GetCityFromCEP unitTracer () "01001000" (FetchResult.response 500 none)).fst =
      Except.error ("ViaCEP API returned status: " ++ toString (500 : Nat)) :=
  ⟨by decide, tracedGetCity_provider_status_error unitTracer () "01001000" 500 none (by decide)⟩

/-- C7 counterexample: the body `true` parses successfully as JSON and has
no temperature field, yet `GetTemperature` returns a decode error rather
than the zero value, because unmarshalling a JSON bool into the
`models.WeatherAPI` struct fails — refuting the claim for bodies that are
valid JSON but incompatible with the expected struct shape. -/
theorem getTemperature_error_on_json_bool :
    Untraced.GetTemperature "key" "London" (FetchResult.response 200 (some (JSON.bool true))) =
      Except.error "json: cannot unmarshal value into type models.WeatherAPI" ∧
    Untraced.GetTemperature "key" "London" (FetchResult.response 200 (some (JSON.bool true))) ≠
      Except.ok 0 := by
  refine ⟨by rfl, ?_⟩
  intro hc
  rw [(by rfl : Untraced.GetTemperature "key" "London"
        (FetchResult.response 200 (some (JSON.bool true))) =
      (Except.error "json: cannot unmarshal value into type models.WeatherAPI" :
        Except String ℚ))] at hc
  exact Except.noConfusion hc

/-- C7 (amended): for every weather response that parses as JSON and is
compatible with the expected struct shape while lacking the temperature
field — a `null` body, an object with no key matching `current` under Go's
case-insensitive key matching, a `null` `current`, or a `current` object
with no key matching `temp_c` — both clients return the zero value `0`
with no error; an error is returned when the body is not valid JSON or a
present value's type is incompatible with the struct. -/
theorem getTemperature_zero_on_missing_field (apiKey city : String) (hk : apiKey ≠ "") :
    (Untraced.GetTemperature apiKey city (FetchResult.response 200 (some JSON.null)) =
      Except.ok 0) ∧
    (∀ fields, (∀ kv ∈ fields, keyEqFold kv.1 "current" = false) →
      Untraced.GetTemperature apiKey city (FetchResult.response 200 (some (JSON.obj fields))) =
        Except.ok 0) ∧
    (Untraced.GetTemperature apiKey city
        (FetchResult.response 200 (some (JSON.obj [("current", JSON.null)]))) = Except.ok 0) ∧
    (∀ inner, (∀ kv ∈ inner, keyEqFold kv.1 "temp_c" = false) →
      Untraced.GetTemperature apiKey city
          (FetchResult.response 200 (some (JSON.obj [("current", JSON.obj inner)]))) =
        Except.ok 0) ∧
    (Untraced.GetTemperature apiKey city (FetchResult.response 200 none) =
      Except.error "invalid JSON") ∧
    (∀ (σ : Type) (t : Tracer σ) (span : σ) (fields : List (String × JSON)),
      (∀ kv ∈ fields, keyEqFold kv.1 "current" = false) →
      (Traced.GetTemperature t span apiKey city
          (FetchResult.response 200 (some (JSON.obj fields)))).fst = Except.ok 0) := by
  have hbk : (apiKey == "") = false := by
    simpa using hk
  have hcc : keyEqFold "current" "current" = true := by rfl
  have hnull : Untraced.GetTemperature apiKey city (FetchResult.response 200 (some JSON.null)) =
      Except.ok 0 := by
    simp [Untraced.GetTemperature, hbk, decodeWeatherAPI]
  have hobj : ∀ fields, (∀ kv ∈ fields, keyEqFold kv.1 "current" = false) →
      Untraced.GetTemperature apiKey city (FetchResult.response 200 (some (JSON.obj fields))) =
        Except.ok 0 := by
    intro fields hf
    simp [Untraced.GetTemperature, hbk, decodeWeatherAPI, foldlM_assignWeatherAPI_skip fields {} hf]
  refine ⟨hnull, hobj, ?_, ?_, ?_, ?_⟩
  · simp [Untraced.GetTemperature, hbk, decodeWeatherAPI, List.foldlM, assignWeatherAPI,
      decodeCurrentInto, Except.map, hcc]
  · intro inner hf
    simp [Untraced.GetTemperature, hbk, decodeWeatherAPI, List.foldlM, assignWeatherAPI,
      decodeCurrentInto, foldlM_assignCurrent_skip inner {} hf, Except.map, hcc]
  · simp [Untraced.GetTemperature, hbk]
  · intro σ t span fields hf
    rw [getTemperature_fst]
    exact hobj fields hf

theorem getTemperature_zero_on_missing_field_witness :
    ("key" : String) ≠ "" ∧
    keyEqFold "location" "current" = false ∧
    Untraced.GetTemperature "key" "London"
        (FetchResult.response 200 (some (JSON.obj [("location", JSON.str "London")]))) =
      Except.ok 0 :=
  ⟨by decide, by rfl,
   (getTemperature_zero_on_missing_field "key" "London" (by decide)).2.1
     [("location", JSON.str "London")] (by decide)⟩

/-- C1: every run of the temperature handler (in both the traced and the
untraced variant) ends in exactly one of four outcome classes determined by
the first failing stage — 422 `invalid zipcode` for a malformed postal
code, 404 `can not find zipcode` for any geocode-client error, 500
`error getting temperature` for any weather-client error, and otherwise 200
with the JSON-encoded report.  The error value `e` is universally
quantified and the produced body is a fixed constant in each class, so no
error detail beyond the fixed generic message is ever sent to the
client. -/
theorem temperatureHandler_outcome_classes {σ : Type} (t : Tracer σ) (span span2 : σ)
    (cep : String) (geoEnv : FetchResult) (apiKey : String) (wxEnv : FetchResult) :
    (IsValidCEP cep = false →
      (Traced.TemperatureHandler t cep geoEnv apiKey wxEnv).response =
        { status := 422, contentTypeJSON := false, body := Body.text "invalid zipcode" } ∧
      (Untraced.TemperatureHandler cep geoEnv apiKey wxEnv).response =
        { status := 422, contentTypeJSON := false, body := Body.text "invalid zipcode" }) ∧
    (∀ e, IsValidCEP cep = true →
      (Traced.GetCityFromCEP t span cep geoEnv).fst = Except.error e →
      (Traced.TemperatureHandler t cep geoEnv apiKey wxEnv).response =
        { status := 404, contentTypeJSON := false, body := Body.text "can not find zipcode" }) ∧
    (∀ city e, IsValidCEP cep = true →
      (Traced.GetCityFromCEP t span cep geoEnv).fst = Except.ok city →
      (Traced.GetTemperature t span2 apiKey city wxEnv).fst = Except.error e →
      (Traced.TemperatureHandler t cep geoEnv apiKey wxEnv).response =
        { status := 500, contentTypeJSON := false, body := Body.text "error getting temperature" }) ∧
    (∀ city tempC, IsValidCEP cep = true →
      (Traced.GetCityFromCEP t span cep geoEnv).fst = Except.ok city →
      (Traced.GetTemperature t span2 apiKey city wxEnv).fst = Except.ok tempC →
      (Traced.TemperatureHandler t cep geoEnv apiKey wxEnv).response =
        { status := 200, contentTypeJSON := true,
          body := Body.jsonTemp { ConvertTemperatures tempC with city := city } }) ∧
    (∀ e, IsValidCEP cep = true →
      Untraced.GetCityFromCEP cep geoEnv = Except.error e →
      (Untraced.TemperatureHandler cep geoEnv apiKey wxEnv).response =
        { status := 404, contentTypeJSON := false, body := Body.text "can not find zipcode" }) ∧
    (∀ city e, IsValidCEP cep = true →
      Untraced.GetCityFromCEP cep geoEnv = Except.ok city →
      Untraced.GetTemperature apiKey city wxEnv = Except.error e →
      (Untraced.TemperatureHandler cep geoEnv apiKey wxEnv).response =
        { status := 500, contentTypeJSON := false, body := Body.text "error getting temperature" }) ∧
    (∀ city tempC, IsValidCEP cep = true →
      Untraced.GetCityFromCEP cep geoEnv = Except.ok city →
      Untraced.GetTemperature apiKey city wxEnv = Except.ok tempC →
      (Untraced.TemperatureHandler cep geoEnv apiKey wxEnv).response =
        { status := 200, contentTypeJSON := true,
          body := Body.jsonTemp { ConvertTemperatures tempC with city := city } }) := by
  have hcharT := traced_handler_char t cep geoEnv apiKey wxEnv
  have hcharU := untraced_handler_char cep geoEnv apiKey wxEnv
  constructor
  · intro hv
    rw [if_pos hv] at hcharT hcharU
    simp only [Prod.mk.injEq] at hcharT hcharU
    exact ⟨hcharT.1, hcharU.1⟩
  constructor
  · intro e hv hge
    rw [if_neg (by simp [hv])] at hcharT
    have hcg : cityCore geoEnv = Except.error e := by
      rw [← getCityFromCEP_fst t span cep geoEnv, hge]
    rw [hcg] at hcharT
    simp only [Prod.mk.injEq] at hcharT
    exact hcharT.1
  constructor
  · intro city e hv hge hwx
    rw [if_neg (by simp [hv])] at hcharT
    have hcg : cityCore geoEnv = Except.ok city := by
      rw [← getCityFromCEP_fst t span cep geoEnv, hge]
    have hwt : Untraced.GetTemperature apiKey city wxEnv = Except.error e := by
      rw [← getTemperature_fst t span2 apiKey city wxEnv, hwx]
    rw [hcg] at hcharT
    dsimp only at hcharT
    rw [hwt] at hcharT
    simp only [Prod.mk.injEq] at hcharT
    exact hcharT.1
  constructor
  · intro city tempC hv hge hwx
    rw [if_neg (by simp [hv])] at hcharT
    have hcg : cityCore geoEnv = Except.ok city := by
      rw [← getCityFromCEP_fst t span cep geoEnv, hge]
    have hwt : Untraced.GetTemperature apiKey city wxEnv = Except.ok tempC := by
      rw [← getTemperature_fst t span2 apiKey city wxEnv, hwx]
    rw [hcg] at hcharT
    dsimp only at hcharT
    rw [hwt] at hcharT
    simp only [Prod.mk.injEq] at hcharT
    exact hcharT.1
  constructor
  · intro e hv hge
    rw [if_neg (by simp [hv]), hge] at hcharU
    simp only [Prod.mk.injEq] at hcharU
    exact hcharU.1
  constructor
  · intro city e hv hge hwx
    rw [if_neg (by simp [hv]), hge] at hcharU
    dsimp only at hcharU
    rw [hwx] at hcharU
    simp only [Prod.mk.injEq] at hcharU
    exact hcharU.1
  · intro city tempC hv hge hwx
    rw [if_neg (by simp [hv]), hge] at hcharU
    dsimp only at hcharU
    rw [hwx] at hcharU
    simp only [Prod.mk.injEq] at hcharU
    exact hcharU.1

theorem temperatureHandler_outcome_classes_witness :
    IsValidCEP "01001000" = true ∧
    (Traced.GetCityFromCEP unitTracer () "01001000"
        (FetchResult.response 200 (some (JSON.obj [("localidade", JSON.str "São Paulo")])))).fst =
      Except.ok "São Paulo" ∧
    (Traced.TemperatureHandler unitTracer "01001000"
        (FetchResult.response 200 (some (JSON.obj [("localidade", JSON.str "São Paulo")])))
        "key"
        (FetchResult.response 200 (some (JSON.obj [("current", JSON.obj [("temp_c", JSON.num 25)])])))).response =
      { status := 200, contentTypeJSON := true,
        body := Body.jsonTemp { ConvertTemperatures 25 with city := "São Paulo" } } :=
  ⟨by rfl, by rfl,
   (temperatureHandler_outcome_classes unitTracer () () "01001000"
      (FetchResult.response 200 (some (JSON.obj [("localidade", JSON.str "São Paulo")])))
      "key"
      (FetchResult.response 200
        (some (JSON.obj [("current", JSON.obj [("temp_c", JSON.num 25)])])))).2.2.2.1
     "São Paulo" 25 (by rfl) (by rfl) (by rfl)⟩

/-- C6: in both handler variants a malformed postal code yields 422
`invalid zipcode` with neither provider called, and the pipeline is
strictly fail-fast: a geocode failure means the weather provider is never
contacted, and the geocode provider is only ever contacted after
validation succeeds. -/
theorem temperatureHandler_fail_fast {σ : Type} (t : Tracer σ) (span : σ) (cep : String)
    (geoEnv : FetchResult) (apiKey : String) (wxEnv : FetchResult) :
    (IsValidCEP cep = false →
      (Traced.TemperatureHandler t cep geoEnv apiKey wxEnv).response =
        { status := 422, contentTypeJSON := false, body := Body.text "invalid zipcode" } ∧
      (Traced.TemperatureHandler t cep geoEnv apiKey wxEnv).geocodeCalled = false ∧
      (Traced.TemperatureHandler t cep geoEnv apiKey wxEnv).weatherCalled = false ∧
      (Untraced.TemperatureHandler cep geoEnv apiKey wxEnv).response =
        { status := 422, contentTypeJSON := false, body := Body.text "invalid zipcode" } ∧
      (Untraced.TemperatureHandler cep geoEnv apiKey wxEnv).geocodeCalled = false ∧
      (Untraced.TemperatureHandler cep geoEnv apiKey wxEnv).weatherCalled = false) ∧
    (∀ e, (Traced.GetCityFromCEP t span cep geoEnv).fst = Except.error e →
      (Traced.TemperatureHandler t cep geoEnv apiKey wxEnv).weatherCalled = false) ∧
    ((Traced.TemperatureHandler t cep geoEnv apiKey wxEnv).geocodeCalled = true →
      IsValidCEP cep = true) ∧
    (∀ e, Untraced.GetCityFromCEP cep geoEnv = Except.error e →
      (Untraced.TemperatureHandler cep geoEnv apiKey wxEnv).weatherCalled = false) ∧
    ((Untraced.TemperatureHandler cep geoEnv apiKey wxEnv).geocodeCalled = true →
      IsValidCEP cep = true) := by
  have hcharT := traced_handler_char t cep geoEnv apiKey wxEnv
  have hcharU := untraced_handler_char cep geoEnv apiKey wxEnv
  by_cases hv : IsValidCEP cep = false
  · rw [if_pos hv] at hcharT hcharU
    simp only [Prod.mk.injEq] at hcharT hcharU
    refine ⟨fun _ => ⟨hcharT.1, hcharT.2.1, hcharT.2.2, hcharU.1, hcharU.2.1, hcharU.2.2⟩,
      fun e _ => hcharT.2.2, fun hg => absurd hcharT.2.1 (by simp [hg]), fun e _ => hcharU.2.2,
      fun hg => absurd hcharU.2.1 (by simp [hg])⟩
  · have hv' : IsValidCEP cep = true := by
      cases h : IsValidCEP cep
      · exact absurd h hv
      · rfl
    rw [if_neg hv] at hcharT hcharU
    refine ⟨fun h => absurd h (by simp [hv']), ?_, fun _ => hv', ?_, fun _ => hv'⟩
    · intro e hge
      have hcg : cityCore geoEnv = Except.error e := by
        rw [← getCityFromCEP_fst t span cep geoEnv, hge]
      rw [hcg] at hcharT
      simp only [Prod.mk.injEq] at hcharT
      exact hcharT.2.2
    · intro e hge
      rw [hge] at hcharU
      simp only [Prod.mk.injEq] at hcharU
      exact hcharU.2.2

theorem temperatureHandler_fail_fast_witness :
    IsValidCEP "1234567" = false ∧
    (Traced.TemperatureHandler unitTracer "1234567" (FetchResult.netError "never sent") "key"
        (FetchResult.netError "never sent either")).response =
      { status := 422, contentTypeJSON := false, body := Body.text "invalid zipcode" } ∧
    (Traced.TemperatureHandler unitTracer "1234567" (FetchResult.netError "never sent") "key"
        (FetchResult.netError "never sent either")).geocodeCalled = false ∧
    (Traced.TemperatureHandler unitTracer "1234567" (FetchResult.netError "never sent") "key"
        (FetchResult.netError "never sent either")).weatherCalled = false := by
  have h := (temperatureHandler_fail_fast unitTracer () "1234567"
    (FetchResult.netError "never sent") "key" (FetchResult.netError "never sent either")).1
    (by rfl)
  exact ⟨by rfl, h.1, h.2.1, h.2.2.1⟩

/-- C9: tracing is metadata only — for any two tracers (over possibly
different span-state types, including tracers whose span operations do
nothing or fail arbitrarily) and any two initial spans, the geocode
client returns the same value-or-error and the traced handler produces the
same HTTP status, body, and pattern of provider calls. -/
theorem tracing_is_metadata {σ σ' : Type} (t : Tracer σ) (t' : Tracer σ') (span : σ)
    (span' : σ') (cep : String) (geoEnv : FetchResult) (apiKey city : String)
    (wxEnv : FetchResult) :
    (Traced.GetCityFromCEP t span cep geoEnv).fst =
      (Traced.GetCityFromCEP t' span' cep geoEnv).fst ∧
    (Traced.GetTemperature t span apiKey city wxEnv).fst =
      (Traced.GetTemperature t' span' apiKey city wxEnv).fst ∧
    (Traced.TemperatureHandler t cep geoEnv apiKey wxEnv).response =
      (Traced.TemperatureHandler t' cep geoEnv apiKey wxEnv).response ∧
    (Traced.TemperatureHandler t cep geoEnv apiKey wxEnv).geocodeCalled =
      (Traced.TemperatureHandler t' cep geoEnv apiKey wxEnv).geocodeCalled ∧
    (Traced.TemperatureHandler t cep geoEnv apiKey wxEnv).weatherCalled =
      (Traced.TemperatureHandler t' cep geoEnv apiKey wxEnv).weatherCalled := by
  have htr := (traced_handler_char t cep geoEnv apiKey wxEnv).trans
    (traced_handler_char t' cep geoEnv apiKey wxEnv).symm
  simp only [Prod.mk.injEq] at htr
  refine ⟨?_, ?_, htr.1, htr.2.1, htr.2.2⟩
  · rw [getCityFromCEP_fst, getCityFromCEP_fst]
  · rw [getTemperature_fst, getTemperature_fst]

/-- C10: beyond the documented 422 and pass-through outcomes, the gateway
returns 500 with JSON body `message: internal server error` whenever
constructing the forward request, performing the outbound call, or reading
the orchestrator's response body fails. -/
theorem gateway_internal_server_error (cep url : String) (hv : validateCEP cep = true)
    (hurl : url ≠ "") :
    (∀ e, Gateway.handleCEPRequest (Except.ok cep) url (ForwardOutcome.buildError e) =
      GatewayResult.respond
        { status := 500, contentTypeJSON := true, body := Body.jsonMessage "internal server error" }) ∧
    (∀ e, Gateway.handleCEPRequest (Except.ok cep) url (ForwardOutcome.netError e) =
      GatewayResult.respond
        { status := 500, contentTypeJSON := true, body := Body.jsonMessage "internal server error" }) ∧
    (∀ status e,
      Gateway.handleCEPRequest (Except.ok cep) url
          (ForwardOutcome.response status (Except.error e)) =
        GatewayResult.respond
          { status := 500, contentTypeJSON := true, body := Body.jsonMessage "internal server error" }) := by
  have hbu : (url == "") = false := by simpa using hurl
  refine ⟨fun e => ?_, fun e => ?_, fun status e => ?_⟩ <;>
    simp [Gateway.handleCEPRequest, hv, hbu]

theorem gateway_internal_server_error_witness :
    validateCEP "01001-000" = true ∧ ("http://service-b:8080" : String) ≠ "" ∧
    Gateway.handleCEPRequest (Except.ok "01001-000") "http://service-b:8080"
        (ForwardOutcome.netError "connection refused") =
      GatewayResult.respond
        { status := 500, contentTypeJSON := true, body := Body.jsonMessage "internal server error" } :=
  ⟨by rfl, by decide,
   (gateway_internal_server_error "01001-000" "http://service-b:8080" (by rfl) (by decide)).2.1
     "connection refused"⟩

example : IsValidCEP "01001000" = true := by decide
example : IsValidCEP "0100100" = false := by decide
example : IsValidCEP "01001-000" = false := by decide
example : IsValidCEP " 01001000" = false := by decide
example : validateCEP "01001-000" = true := by decide
example : validateCEP "01 001 000" = true := by decide
example : (ConvertTemperatures 25).tempF = 77 := by norm_num [ConvertTemperatures]
example : (ConvertTemperatures 25).tempK = 298 := by norm_num [ConvertTemperatures]
example : decodeViaCEP (JSON.obj [("localidade", JSON.str "São Paulo"), ("uf", JSON.str "SP")]) =
    .ok { localidade := "São Paulo", erro := false } := by rfl
example : decodeWeatherAPI (JSON.obj [("current", JSON.obj [("temp_c", JSON.num 25)])]) =
    .ok { current := { tempC := 25 } } := by rfl
example : (decodeWeatherAPI (JSON.bool true)).isOk = false := by rfl
example :
    Untraced.GetCityFromCEP "01001000"
      (FetchResult.response 500 (some (JSON.obj [("localidade", JSON.str "São Paulo")]))) =
    Except.ok "São Paulo" := by rfl
example :
    Untraced.GetTemperature "key" "X" (FetchResult.response 200 (some (JSON.bool true))) =
    Except.error "json: cannot unmarshal value into type models.WeatherAPI" := by rfl
example :
    Untraced.GetTemperature "key" "X" (FetchResult.response 200 (some (JSON.obj []))) =
    Except.ok 0 := by rfl
example :
    Gateway.handleCEPRequest (Except.ok "01001-000") "http://b"
      (ForwardOutcome.response 404 (Except.ok "can not find zipcode")) =
    GatewayResult.respond
      { status := 404, contentTypeJSON := true, body := Body.raw "can not find zipcode" } := by rfl
example :
    Gateway.handleCEPRequest (Except.ok "1234567") "http://b"
      (ForwardOutcome.response 200 (Except.ok "ignored")) =
    GatewayResult.respond
      { status := 422, contentTypeJSON := true, body := Body.jsonMessage "invalid zipcode" } := by rfl
example : decodeWeatherAPI (JSON.obj [("Current", JSON.obj [("TEMP_C", JSON.num 25)])]) =
    .ok { current := { tempC := 25 } } := by rfl
example : decodeViaCEP (JSON.obj [("Localidade", JSON.str "São Paulo"), ("ERRO", JSON.bool false)]) =
    .ok { localidade := "São Paulo", erro := false } := by rfl
example :
    Untraced.GetTemperature "key" "X"
      (FetchResult.response 200 (some (JSON.obj [("Current", JSON.obj [("TEMP_C", JSON.num 25)])]))) =
    Except.ok 25 := by rfl
